import Mathlib

/-!
# Verification of the `swcpy` SDK client (`SWCClient`)

Shallow embedding of `src/chapter7/sdk/src/swcpy/swc_client.py`.

The client wraps a single HTTP call path (`call_api`), optionally decorated
with the exponential-backoff retry of the `backoff` library at construction
time,
and derives per-entity bulk file names from the configured format.

Modelling conventions:
* Python `dict`s of query parameters are association lists with distinct keys;
  a Python `None` value is `Option.none`.
* The HTTP transport (`httpx`) is a parameter: an exchange function from the
  built request to an outcome.  Faithful to `httpx`, `client.get` either raises
  a transport error (`httpx.RequestError`) or returns the completed response
  for ANY status code — `httpx.HTTPStatusError` is raised only by an explicit
  `raise_for_status()` call, which `swc_client.py` never makes.
* `response.json()` (the Python stdlib JSON parse used in the debug log line)
  is modelled by a boolean attribute `bodyIsJson` of the delivered response:
  whether the stdlib parse of the body succeeds.
* Logging is modelled as the list of error-level log lines emitted.
-/

namespace Swcpy

/-- Configuration value object.  The class `SWCConfig` lives in
`swcpy/swc_config.py`, which is not part of the excerpted source tree.
Modelled from the spec: the configuration surface is the four fields
`swc_base_url` (string), `swc_backoff` (bool), `swc_backoff_max_time`
(seconds), `swc_bulk_file_format` (string, "csv"|"parquet"), read off by
`SWCClient.__init__` exactly under these attribute names. -/
structure SWCConfig where
  swc_base_url : String
  swc_backoff : Bool
  swc_backoff_max_time : ℚ
  swc_bulk_file_format : String
deriving Repr

/-- Python string method `lower()`: lower-case every character (the format
strings of interest are ASCII, where Python and `Char.toLower` agree). -/
def pyLower (s : String) : String := ⟨s.data.map Char.toLower⟩

/-- The `BULK_FILE_NAMES` dictionary as first assigned in `__init__`
(entity key ↦ file basename, before the extension is appended). -/
def baseBulkFileNames : List (String × String) :=
  [ ("players", "player_data")
  , ("leagues", "league_data")
  , ("performances", "performance_data")
  , ("teams", "team_data")
  , ("team_players", "team_player_data") ]

/-- The extension step of `__init__`: if
`self.bulk_file_format.lower() == "parquet"` every value gets `".parquet"`
appended, else every value gets `".csv"` appended. -/
def bulkFileNames (format : String) : List (String × String) :=
  if pyLower format = "parquet" then
    baseBulkFileNames.map (fun kv => (kv.1, kv.2 ++ ".parquet"))
  else
    baseBulkFileNames.map (fun kv => (kv.1, kv.2 ++ ".csv"))

/-- The state of an `SWCClient` instance after `__init__` finishes.
`get_url` is the retry-wrapped alias of `call_api`: it is set (to a wrapper
carrying `max_time = self.backoff_max_time`) only inside `if self.backoff:`;
on a no-backoff instance the attribute is never assigned, modelled by
`none`. -/
structure SWCClient where
  swc_base_url : String
  backoff : Bool
  backoff_max_time : ℚ
  bulk_file_format : String
  BULK_FILE_NAMES : List (String × String)
  get_url : Option ℚ
deriving Repr

/-- The constructor `SWCClient.__init__`: copies the four configuration fields, builds the
bulk file name table, and installs the backoff-wrapped `get_url` alias iff
`swc_backoff` is set. -/
def SWCClient.init (c : SWCConfig) : SWCClient :=
  { swc_base_url := c.swc_base_url
  , backoff := c.swc_backoff
  , backoff_max_time := c.swc_backoff_max_time
  , bulk_file_format := c.swc_bulk_file_format
  , BULK_FILE_NAMES := bulkFileNames c.swc_bulk_file_format
  , get_url := if c.swc_backoff then some c.swc_backoff_max_time else none }

/-- Python attribute access: `client.get_url` either finds the bound
attribute or raises `AttributeError`. -/
inductive PyAttr (α : Type) where
  | found (a : α)
  | attributeError
deriving DecidableEq, Repr

/-- Reading the attribute, as in `getattr(client, "get_url")`. -/
def SWCClient.getattr_get_url (c : SWCClient) : PyAttr ℚ :=
  match c.get_url with
  | some t => .found t
  | none => .attributeError

/-! ## `call_api` -/

/-- A Python parameter dict passed as `api_params`: association list of
key ↦ value, where the value `none` is Python `None`.  `Option` around the
whole list distinguishes `api_params=None` (the default) from a dict. -/
abbrev ParamDict := List (String × Option String)

/-- Line 114–115 of `swc_client.py`:
`if api_params: api_params = {key: val for key, val in api_params.items() if val is not None}`.
A `None` or empty dict is falsy, so it is left untouched; a non-empty dict is
replaced by its restriction to keys with non-`None` values. -/
def filtered_api_params : Option ParamDict → Option ParamDict
  | none => none
  | some l => if l.isEmpty then some l else some (l.filter (fun kv => kv.2.isSome))

/-- Rendering by `httpx` of a primitive query-parameter value to a string
(`httpx._utils.primitive_value_to_str`): `None` renders as the empty
string — which is why un-filtered `None` values WOULD appear as empty query
args. -/
def primitive_value_to_str : Option String → String
  | none => ""
  | some s => s

/-- The outgoing HTTP request. -/
structure Request where
  method : String
  url : String
  queryParams : List (String × String)
deriving DecidableEq, Repr

/-- The request issued by `client.get(api_endpoint, params=api_params)` on an
`httpx.Client(base_url=self.swc_base_url)`: a GET against base URL joined
with the endpoint path (plain concatenation for an absolute-path endpoint on
a no-trailing-slash base), query parameters rendered from the filtered dict
(`params=None` means no query parameters at all). -/
def buildRequest (swc_base_url api_endpoint : String)
    (api_params : Option ParamDict) : Request :=
  { method := "GET"
  , url := swc_base_url ++ api_endpoint
  , queryParams :=
      match filtered_api_params api_params with
      | none => []
      | some l => l.map (fun kv => (kv.1, primitive_value_to_str kv.2)) }

/-- A completed HTTP response as `httpx` returns it from `client.get`.
`bodyIsJson` records whether the stdlib JSON parse invoked by
`response.json()` succeeds on `body` (an attribute of the delivered bytes,
supplied by the transport model). -/
structure Response where
  status : Nat
  headers : List (String × String)
  body : String
  bodyIsJson : Bool
deriving DecidableEq, Repr

/-- What the transport does with one issued request.  Faithful to `httpx`:
`client.get` either raises `httpx.RequestError` (connection refused, timeout,
DNS failure, …) or returns the completed response — for EVERY status code,
4xx/5xx included.  `httpx.HTTPStatusError` is raised only by
`raise_for_status()`, which `call_api` never calls. -/
inductive ExchangeOutcome where
  | transportError (msg : String)
  | delivered (resp : Response)
deriving DecidableEq, Repr

/-- The error classes that can propagate out of `call_api`. -/
inductive CallError where
  | statusError (code : Nat) (text : String)
  | requestError (msg : String)
  | jsonDecodeError
deriving DecidableEq, Repr

/-- Result of one invocation of `call_api`: either the returned response or a
raised exception. -/
inductive CallResult where
  | ok (resp : Response)
  | raised (e : CallError)
deriving DecidableEq, Repr

/-- Outcome of the `try` block of `call_api` (lines 117–122): the response is
returned, or one of the exception classes named by the `except` clauses
escapes, or some other exception (here: the JSON decode failure from the
`logger.debug(f"Response JSON: {response.json()}")` line, which is a
`ValueError`, matching neither `except` clause) escapes. -/
inductive TryOutcome where
  | ret (resp : Response)
  | exnStatus (code : Nat) (text : String)
  | exnRequest (msg : String)
  | exnOther (e : CallError)
deriving DecidableEq, Repr

/-- The `try` block body: issue the GET; on a delivered response, evaluate
`response.json()` for the debug log (the f-string argument is evaluated
unconditionally) — a body that is not valid JSON raises there and the
response is never returned — then return the response.  Note `exnStatus` is
never produced: nothing in the block calls `raise_for_status()`. -/
def tryBody (exchange : Request → ExchangeOutcome) (req : Request) : TryOutcome :=
  match exchange req with
  | .transportError msg => .exnRequest msg
  | .delivered resp =>
      if resp.bodyIsJson then .ret resp else .exnOther .jsonDecodeError

/-- Result of `call_api` together with the error-level log lines emitted. -/
structure CallOutput where
  result : CallResult
  errorLog : List String
deriving DecidableEq, Repr

/-- The `except` clauses of `call_api` (lines 123–128): an
`httpx.HTTPStatusError` is logged (status code and body) and re-raised with a
bare `raise`; an `httpx.RequestError` is logged (its message) and re-raised
with a bare `raise`; anything else propagates uncaught and unlogged. -/
def handleOutcome : TryOutcome → CallOutput
  | .ret resp => { result := .ok resp, errorLog := [] }
  | .exnStatus code text =>
      { result := .raised (.statusError code text)
      , errorLog := ["HTTP status error occurred: " ++ toString code ++ " " ++ text] }
  | .exnRequest msg =>
      { result := .raised (.requestError msg)
      , errorLog := ["Request error occurred: " ++ msg] }
  | .exnOther e => { result := .raised e, errorLog := [] }

/-- The method `SWCClient.call_api` (lines 108–128): filter the parameters, issue one
GET through the transport, and propagate the result through the `except`
clauses. -/
def call_api (exchange : Request → ExchangeOutcome) (swc_base_url : String)
    (api_endpoint : String) (api_params : Option ParamDict) : CallOutput :=
  handleOutcome (tryBody exchange (buildRequest swc_base_url api_endpoint api_params))

/-! ## The backoff-wrapped call path (`get_url`)

The constructor wraps `call_api` with
`backoff.on_exception(wait_gen=backoff.expo, exception=(httpx.RequestError,
httpx.HTTPStatusError), max_time=self.backoff_max_time,
jitter=backoff.random_jitter)`.  The `backoff` library is an external
dependency, not part of this source tree, so its retry loop is modelled from
the spec below. -/

/-- The exception tuple configured on the decorator: only
`httpx.RequestError` and `httpx.HTTPStatusError` trigger a retry; every
other exception class propagates immediately. -/
def retriable : CallError → Bool
  | .statusError _ _ => true
  | .requestError _ => true
  | .jsonDecodeError => false

/-- Modelled from the spec: the wait before the i-th retry under
`backoff.expo` with `backoff.random_jitter` — an exponentially doubling
base interval (1, 2, 4, …) plus a randomized jitter term; the jitter
sequence is a parameter of the model. -/
def expoJitterWait (jitter : ℕ → ℚ) (i : ℕ) : ℚ := 2 ^ i + jitter i

/-- Cumulative elapsed time at the start of attempt `k`: the sum of the
waits taken before it (the first attempt starts at time 0). -/
def elapsedAt (waits : ℕ → ℚ) (k : ℕ) : ℚ := ∑ i ∈ Finset.range k, waits i

/-- Modelled from the spec: the retry loop of `backoff.on_exception`
(missing from the source tree; `swc_client.py` only configures it).  State:
attempt index `k` and elapsed time.  Make attempt `k`; on success or on a
non-retriable exception stop with that outcome; on a retriable exception,
if waiting would still keep the cumulative elapsed time within `maxTime`,
sleep and retry, else give up re-raising the LAST error.  The decision uses
only the outcome class and the time comparison — no attempt counter is
consulted.  Returns the final outcome and the number of attempts made;
`fuel` bounds the recursion depth and is shown sufficient below. -/
def retryLoopAux (maxTime : ℚ) (waits : ℕ → ℚ) (attempts : ℕ → CallResult) :
    ℕ → ℕ → ℚ → Option (CallResult × ℕ)
  | 0, _, _ => none
  | fuel + 1, k, elapsed =>
      match attempts k with
      | .ok r => some (.ok r, k + 1)
      | .raised e =>
          if retriable e = true ∧ elapsed + waits k ≤ maxTime then
            retryLoopAux maxTime waits attempts fuel (k + 1) (elapsed + waits k)
          else some (.raised e, k + 1)

/-- Modelled from the spec: the wrapped call — run the retry loop from
attempt 0 at elapsed time 0 with the expo-plus-jitter wait sequence. -/
def retryCall (maxTime : ℚ) (jitter : ℕ → ℚ) (attempts : ℕ → CallResult)
    (fuel : ℕ) : Option (CallResult × ℕ) :=
  retryLoopAux maxTime (expoJitterWait jitter) attempts fuel 0 0

end Swcpy

namespace Swcpy

/-! ## Concrete fixtures used by witnesses and counterexamples -/

/-- A 503 response whose body is valid JSON (as a FastAPI error payload is). -/
def resp503 : Response :=
  { status := 503
  , headers := [("content-type", "application/json")]
  , body := "[\"Service Unavailable\"]"
  , bodyIsJson := true }

/-- A transport that delivers HTTP 503 on every attempt. -/
def exch503 : Request → ExchangeOutcome := fun _ => .delivered resp503

/-- A transport on which every connection attempt is refused. -/
def exchRefused : Request → ExchangeOutcome := fun _ => .transportError "connection refused"

/-- A 200 response whose body is not valid JSON. -/
def respOops : Response :=
  { status := 200
  , headers := [("content-type", "text/plain")]
  , body := "oops"
  , bodyIsJson := false }

/-- A transport that delivers the non-JSON 200 response on every attempt. -/
def exchOops : Request → ExchangeOutcome := fun _ => .delivered respOops

/-- A wrapped target that raises a transport error on every attempt. -/
def failBoom : ℕ → CallResult := fun _ => .raised (.requestError "boom")

/-- The all-zero jitter sequence. -/
def zeroJitter : ℕ → ℚ := fun _ => 0

/-- A configuration with retry disabled. -/
def cfgNoBackoff : SWCConfig :=
  { swc_base_url := "https://api.example.com"
  , swc_backoff := false
  , swc_backoff_max_time := 1
  , swc_bulk_file_format := "csv" }

/-- A configuration with format "Parquet" (mixed case). -/
def cfgParquet : SWCConfig :=
  { swc_base_url := "https://api.example.com"
  , swc_backoff := true
  , swc_backoff_max_time := 30
  , swc_bulk_file_format := "Parquet" }

/-- A configuration with format "CSV" (upper case). -/
def cfgCSV : SWCConfig :=
  { swc_base_url := "https://api.example.com"
  , swc_backoff := true
  , swc_backoff_max_time := 30
  , swc_bulk_file_format := "CSV" }

end Swcpy

namespace Swcpy

/-! ## Helper lemmas -/

/-- In an association list whose keys are pairwise distinct (a Python dict),
two entries with the same key carry the same value. -/
lemma assoc_value_eq {l : List (String × Option String)}
    (h : (l.map Prod.fst).Nodup) {k : String} {v w : Option String}
    (hv : (k, v) ∈ l) (hw : (k, w) ∈ l) : v = w := by
  induction l with
  | nil => cases hv
  | cons x t ih =>
      rw [List.map_cons, List.nodup_cons] at h
      rcases List.mem_cons.mp hv with h1 | h1
      · rcases List.mem_cons.mp hw with h2 | h2
        · have h3 : (k, v) = ((k, w) : String × Option String) := h1.trans h2.symm
          simpa using h3
        · exfalso
          have hk : x.1 = k := by rw [← h1]
          exact h.1 (by rw [hk]; exact List.mem_map_of_mem Prod.fst h2)
      · rcases List.mem_cons.mp hw with h2 | h2
        · exfalso
          have hk : x.1 = k := by rw [← h2]
          exact h.1 (by rw [hk]; exact List.mem_map_of_mem Prod.fst h1)
        · exact ih h.2 h1 h2

/-- Unfolding of the cumulative elapsed time by one attempt. -/
lemma elapsedAt_succ (waits : ℕ → ℚ) (k : ℕ) :
    elapsedAt waits (k + 1) = elapsedAt waits k + waits k := by
  simp [elapsedAt, Finset.sum_range_succ]

/-- The first attempt starts at elapsed time zero. -/
lemma elapsedAt_zero (waits : ℕ → ℚ) : elapsedAt waits 0 = 0 := by
  simp [elapsedAt]

/-- Trace characterization of the modelled retry loop, started at attempt
`k` at its cumulative elapsed time: when it terminates with outcome `r`
after a total of `n` attempts, every attempt before the last failed with a
retriable error within the time budget, and the last attempt either
succeeded or its error is the one re-raised — re-raised only because it is
not retriable or because the time budget is exhausted. -/
lemma retryLoopAux_spec (maxTime : ℚ) (waits : ℕ → ℚ) (att : ℕ → CallResult) :
    ∀ fuel k r n,
      retryLoopAux maxTime waits att fuel k (elapsedAt waits k) = some (r, n) →
      k < n
      ∧ (∀ j, k ≤ j → j + 1 < n →
          ∃ e, att j = .raised e ∧ retriable e = true ∧ elapsedAt waits (j + 1) ≤ maxTime)
      ∧ ((∃ resp, r = .ok resp ∧ att (n - 1) = .ok resp)
         ∨ (∃ e, r = .raised e ∧ att (n - 1) = .raised e
              ∧ (retriable e = false ∨ maxTime < elapsedAt waits n))) := by
  intro fuel
  induction fuel with
  | zero => intro k r n h; exact absurd h (by simp [retryLoopAux])
  | succ f ih =>
      intro k r n h
      rw [retryLoopAux] at h
      split at h
      next resp hatt =>
          obtain ⟨hr, hn⟩ : CallResult.ok resp = r ∧ k + 1 = n := by
            simpa using h
          refine ⟨by omega, fun j hkj hjn => absurd hjn (by omega),
            Or.inl ⟨resp, hr.symm, ?_⟩⟩
          have hk : n - 1 = k := by omega
          rw [hk, hatt]
      next e hatt =>
          by_cases hc : retriable e = true ∧ elapsedAt waits k + waits k ≤ maxTime
          · rw [if_pos hc, ← elapsedAt_succ] at h
            obtain ⟨hlt, hmid, hlast⟩ := ih (k + 1) r n h
            refine ⟨by omega, fun j hkj hjn => ?_, hlast⟩
            rcases Nat.eq_or_lt_of_le hkj with hkj' | hkj'
            · subst hkj'
              exact ⟨e, hatt, hc.1, by rw [elapsedAt_succ]; exact hc.2⟩
            · exact hmid j hkj' hjn
          · rw [if_neg hc] at h
            obtain ⟨hr, hn⟩ : CallResult.raised e = r ∧ k + 1 = n := by
              simpa using h
            have hk : n - 1 = k := by omega
            push_neg at hc
            refine ⟨by omega, fun j hkj hjn => absurd hjn (by omega),
              Or.inr ⟨e, hr.symm, by rw [hk, hatt], ?_⟩⟩
            by_cases hret : retriable e = true
            · refine Or.inr ?_
              rw [← hn, elapsedAt_succ]
              exact hc hret
            · exact Or.inl (by simpa using hret)

end Swcpy

namespace Swcpy

/-- A wrapped target whose every attempt fails with a connection refusal. -/
def failRefused : ℕ → CallResult := fun _ => .raised (.requestError "connection refused")

/-- With zero jitter and a permanently failing target, a time budget of
`2 ^ (m + 1)` seconds makes the loop, started at attempt `k` (at elapsed
time `2 ^ k - 1`) with `d` attempts still to come, give up only after
attempt `m + 1`, i.e. after `m + 2` attempts in total. -/
lemma retryLoop_pow_attempts (m : ℕ) :
    ∀ d k fuel, 1 ≤ d → d ≤ fuel → k + d = m + 2 →
      retryLoopAux ((2 : ℚ) ^ (m + 1)) (expoJitterWait zeroJitter) failRefused
          fuel k ((2 : ℚ) ^ k - 1)
        = some (.raised (.requestError "connection refused"), m + 2) := by
  intro d
  induction d with
  | zero => intro k fuel h1 _ _; omega
  | succ d ihd =>
      intro k fuel h1 hf hk
      obtain ⟨f, rfl⟩ : ∃ f, fuel = f + 1 := ⟨fuel - 1, by omega⟩
      rw [retryLoopAux]
      show (if retriable (.requestError "connection refused") = true
              ∧ (2 : ℚ) ^ k - 1 + expoJitterWait zeroJitter k ≤ (2 : ℚ) ^ (m + 1)
            then retryLoopAux ((2 : ℚ) ^ (m + 1)) (expoJitterWait zeroJitter) failRefused
                  f (k + 1) ((2 : ℚ) ^ k - 1 + expoJitterWait zeroJitter k)
            else some (.raised (.requestError "connection refused"), k + 1))
        = some (.raised (.requestError "connection refused"), m + 2)
      have hw : expoJitterWait zeroJitter k = (2 : ℚ) ^ k := by
        simp [expoJitterWait, zeroJitter]
      rw [hw]
      by_cases hd : d = 0
      · subst hd
        have hkm : k = m + 1 := by omega
        subst hkm
        have h2 : (2 : ℚ) ≤ 2 ^ (m + 1) := by
          calc (2 : ℚ) = 2 ^ 1 := (pow_one 2).symm
          _ ≤ 2 ^ (m + 1) := by
              apply pow_le_pow_right₀ one_le_two
              omega
        have hneg : ¬(retriable (CallError.requestError "connection refused") = true
            ∧ (2 : ℚ) ^ (m + 1) - 1 + 2 ^ (m + 1) ≤ (2 : ℚ) ^ (m + 1)) := by
          rintro ⟨-, habs⟩
          linarith
        rw [if_neg hneg]
      · have hkm : k + 1 ≤ m + 1 := by omega
        have h2 : (2 : ℚ) ^ (k + 1) ≤ 2 ^ (m + 1) := pow_le_pow_right₀ one_le_two hkm
        have harith : (2 : ℚ) ^ k - 1 + 2 ^ k = 2 ^ (k + 1) - 1 := by
          rw [pow_succ]; ring
        rw [if_pos ⟨rfl, by linarith [harith, h2]⟩, harith]
        exact ihd (k + 1) f (by omega) (by omega) (by omega)

/-- For every `m` there is a time budget under which the modelled retry loop
makes at least `m` attempts: no attempt count independent of the time bound
ever stops it. -/
lemma retry_no_attempt_cap (m : ℕ) :
    ∃ T fuel n, m ≤ n ∧
      retryCall T zeroJitter failRefused fuel
        = some (.raised (.requestError "connection refused"), n) := by
  refine ⟨(2 : ℚ) ^ (m + 1), m + 2, m + 2, by omega, ?_⟩
  have h0 : ((2 : ℚ) ^ (0 : ℕ) - 1) = 0 := by norm_num
  unfold retryCall
  rw [← h0]
  exact retryLoop_pow_attempts m (m + 2) 0 (m + 2) (by omega) (le_refl _) (by omega)

end Swcpy

namespace Swcpy

/-! ## Claim theorems -/

/-- C1: the claim states that a completed HTTP exchange with a 4xx/5xx
status is raised to the caller as a status error, and in particular that a
server answering 503 on every attempt with backoff enabled and
`backoff_max_seconds = 1` makes the call raise a StatusError.  The code
violates this: `call_api` never calls `raise_for_status()`, so the 503
response is RETURNED as a normal value with an empty error log, and the
backoff-wrapped path returns it after a single attempt without raising. -/
theorem status_failure_returned_not_raised :
    (call_api exch503 "https://api.example.com" "/v0/leagues/" none).result = .ok resp503
  ∧ retryCall 1 zeroJitter
      (fun _ => (call_api exch503 "https://api.example.com" "/v0/leagues/" none).result) 3
      = some (.ok resp503, 1)
  ∧ (call_api exch503 "https://api.example.com" "/v0/leagues/" none).errorLog = [] :=
  ⟨rfl, rfl, rfl⟩

/-- C2 counterexample: the claim that `call_api` returns every delivered
response unchanged without parsing the payload is false: `call_api`
evaluates `response.json()` in its debug-log f-string, so a delivered 200
response whose body is not valid JSON is not returned — a JSON decode error
is raised instead. -/
theorem nonjson_response_not_returned :
    (call_api exchOops "https://api.example.com" "/" none).result = .raised .jsonDecodeError
  ∧ (call_api exchOops "https://api.example.com" "/" none).result ≠ .ok respOops :=
  ⟨rfl, by decide⟩

/-- C2 amended: for every delivered response, `call_api` returns the raw
response object unchanged exactly when its body parses as JSON (the parse
happens only for the debug log; no schema validation is applied and the
response is untouched); a body that is not valid JSON makes the call raise
a JSON decode error instead of returning. -/
theorem delivered_response_returned_iff_body_json
    (exchange : Request → ExchangeOutcome) (base ep : String) (ps : Option ParamDict)
    (resp : Response)
    (hdel : exchange (buildRequest base ep ps) = .delivered resp) :
    (call_api exchange base ep ps).result
      = (if resp.bodyIsJson then .ok resp else .raised .jsonDecodeError) := by
  unfold call_api tryBody
  rw [hdel]
  by_cases hb : resp.bodyIsJson = true <;> simp [hb, handleOutcome]

/-- Witness for the amended C2 theorem at a concrete delivered response. -/
theorem delivered_response_returned_iff_body_json_witness :
    (call_api exchOops "https://api.example.com" "/" none).result
      = (if respOops.bodyIsJson then .ok respOops else .raised .jsonDecodeError) :=
  delivered_response_returned_iff_body_json exchOops "https://api.example.com" "/" none
    respOops rfl

/-- C3: no key whose value is null appears in the outgoing query
parameters; in particular invoking the leagues endpoint with
`league_id = None` issues a GET against base plus path with no query
parameters at all. -/
theorem none_valued_params_stripped (base ep : String) (ps : ParamDict) (k : String)
    (hnodup : (ps.map Prod.fst).Nodup) (hk : (k, none) ∈ ps) :
    (∀ s, (k, s) ∉ (buildRequest base ep (some ps)).queryParams)
  ∧ buildRequest "https://api.example.com" "/v0/leagues/" (some [("league_id", none)])
      = { method := "GET", url := "https://api.example.com/v0/leagues/"
        , queryParams := [] } := by
  constructor
  · intro s hmem
    have hne : ps.isEmpty = false := by
      cases ps with
      | nil => cases hk
      | cons a t => rfl
    have hq : (buildRequest base ep (some ps)).queryParams
        = (ps.filter (fun kv => kv.2.isSome)).map
            (fun kv => (kv.1, primitive_value_to_str kv.2)) := by
      simp [buildRequest, filtered_api_params, hne]
    rw [hq] at hmem
    obtain ⟨⟨k', v⟩, hkv, heq⟩ := List.mem_map.mp hmem
    obtain ⟨hmem', hsome⟩ := List.mem_filter.mp hkv
    have hk' : k' = k := congrArg Prod.fst heq
    subst hk'
    have hv : (none : Option String) = v := assoc_value_eq hnodup hk hmem'
    rw [← hv] at hsome
    simp at hsome
  · rfl

/-- Witness for C3 at the concrete scenario input of the spec. -/
theorem none_valued_params_stripped_witness :
    ("league_id", "x") ∉ (buildRequest "https://api.example.com" "/v0/leagues/"
        (some [("league_id", none)])).queryParams
  ∧ buildRequest "https://api.example.com" "/v0/leagues/" (some [("league_id", none)])
      = { method := "GET", url := "https://api.example.com/v0/leagues/"
        , queryParams := [] } :=
  ⟨(none_valued_params_stripped "https://api.example.com" "/v0/leagues/"
      [("league_id", none)] "league_id" (by decide) (by decide)).1 "x",
   (none_valued_params_stripped "https://api.example.com" "/v0/leagues/"
      [("league_id", none)] "league_id" (by decide) (by decide)).2⟩

/-- C4: if the configured format lower-cases to "parquet", every value of
the bulk file name table ends in ".parquet"; for any other format string
(including "csv" in any case and arbitrary values) every value ends in
".csv". -/
theorem bulk_filenames_extension_matches_format (cfg : SWCConfig) :
    (pyLower cfg.swc_bulk_file_format = "parquet" →
      ∀ v ∈ ((SWCClient.init cfg).BULK_FILE_NAMES).map Prod.snd,
        ∃ stem, v = stem ++ ".parquet")
  ∧ (pyLower cfg.swc_bulk_file_format ≠ "parquet" →
      ∀ v ∈ ((SWCClient.init cfg).BULK_FILE_NAMES).map Prod.snd,
        ∃ stem, v = stem ++ ".csv") := by
  constructor
  · intro hfmt v hv
    simp [SWCClient.init, bulkFileNames, baseBulkFileNames, hfmt] at hv
    rcases hv with h | h | h | h | h <;> subst h
    · exact ⟨"player_data", by decide⟩
    · exact ⟨"league_data", by decide⟩
    · exact ⟨"performance_data", by decide⟩
    · exact ⟨"team_data", by decide⟩
    · exact ⟨"team_player_data", by decide⟩
  · intro hfmt v hv
    simp [SWCClient.init, bulkFileNames, baseBulkFileNames, hfmt] at hv
    rcases hv with h | h | h | h | h <;> subst h
    · exact ⟨"player_data", by decide⟩
    · exact ⟨"league_data", by decide⟩
    · exact ⟨"performance_data", by decide⟩
    · exact ⟨"team_data", by decide⟩
    · exact ⟨"team_player_data", by decide⟩

/-- Witness for C4 with the mixed-case formats "Parquet" and "CSV". -/
theorem bulk_filenames_extension_matches_format_witness :
    (∃ stem, ("player_data.parquet" : String) = stem ++ ".parquet")
  ∧ (∃ stem, ("team_player_data.csv" : String) = stem ++ ".csv") :=
  ⟨(bulk_filenames_extension_matches_format cfgParquet).1 (by decide)
      "player_data.parquet" (by decide),
   (bulk_filenames_extension_matches_format cfgCSV).2 (by decide)
      "team_player_data.csv" (by decide)⟩

/-- C5: after construction the bulk file name table holds exactly the five
entity keys, each mapped to its fixed basename plus the format-chosen
extension; with format "Parquet" the key "players" maps to
"player_data.parquet". -/
theorem bulk_filename_table_contents (cfg : SWCConfig) :
    ((SWCClient.init cfg).BULK_FILE_NAMES).map Prod.fst
      = ["players", "leagues", "performances", "teams", "team_players"]
  ∧ (∃ ext, (ext = ".parquet" ∨ ext = ".csv")
      ∧ (SWCClient.init cfg).BULK_FILE_NAMES
          = [ ("players", "player_data" ++ ext)
            , ("leagues", "league_data" ++ ext)
            , ("performances", "performance_data" ++ ext)
            , ("teams", "team_data" ++ ext)
            , ("team_players", "team_player_data" ++ ext) ])
  ∧ List.lookup "players"
      (SWCClient.init { cfg with swc_bulk_file_format := "Parquet" }).BULK_FILE_NAMES
      = some "player_data.parquet" := by
  refine ⟨?_, ?_, ?_⟩
  · unfold SWCClient.init bulkFileNames baseBulkFileNames
    split <;> rfl
  · unfold SWCClient.init bulkFileNames baseBulkFileNames
    split
    · exact ⟨".parquet", Or.inl rfl, rfl⟩
    · exact ⟨".csv", Or.inr rfl, rfl⟩
  · rfl

/-- C6: the claim states that with backoff disabled a single transport or
status failure propagates immediately with exactly one attempt.  The
transport half holds — the plain unwrapped path (no `get_url` alias is
installed) raises the transport error of its single exchange.  The status
half is violated by the code: a 503 response does not propagate as an error
but is returned as a normal value. -/
theorem no_backoff_status_failure_not_propagated :
    (SWCClient.init cfgNoBackoff).get_url = none
  ∧ (call_api exchRefused "https://api.example.com" "/" none).result
      = .raised (.requestError "connection refused")
  ∧ (call_api exch503 "https://api.example.com" "/" none).result = .ok resp503 :=
  ⟨rfl, rfl, rfl⟩

/-- C7: the backoff-wrapped call path retries a retriably failing call, each
earlier attempt starting within the time budget, until the call succeeds or
the cumulative elapsed time exceeds `backoff_max_seconds`, at which point
the last error is re-raised; and for every attempt count there is a time
budget under which more attempts are made — the time bound is the sole
termination criterion. -/
theorem retry_until_success_or_time_budget
    (maxTime : ℚ) (jitter : ℕ → ℚ) (att : ℕ → CallResult) (fuel : ℕ)
    (r : CallResult) (n j m : ℕ)
    (h : retryCall maxTime jitter att fuel = some (r, n)) (hj : j + 1 < n) :
    1 ≤ n
  ∧ ((∃ resp, r = .ok resp ∧ att (n - 1) = .ok resp)
     ∨ (∃ e, r = .raised e ∧ att (n - 1) = .raised e
          ∧ (retriable e = false ∨ maxTime < elapsedAt (expoJitterWait jitter) n)))
  ∧ (∃ e, att j = .raised e ∧ retriable e = true
        ∧ elapsedAt (expoJitterWait jitter) (j + 1) ≤ maxTime)
  ∧ (∃ T fuel' n', m ≤ n'
        ∧ retryCall T zeroJitter failRefused fuel'
            = some (.raised (.requestError "connection refused"), n')) := by
  have h0 : (0 : ℚ) = elapsedAt (expoJitterWait jitter) 0 := (elapsedAt_zero _).symm
  unfold retryCall at h
  rw [h0] at h
  obtain ⟨hlt, hmid, hlast⟩ :=
    retryLoopAux_spec maxTime (expoJitterWait jitter) att fuel 0 r n h
  exact ⟨by omega, hlast, hmid j (Nat.zero_le j) hj, retry_no_attempt_cap m⟩

/-- Witness for C7: two attempts within a one-second budget, the second
exhausting it. -/
theorem retry_until_success_or_time_budget_witness :
    1 ≤ 2
  ∧ ((∃ resp, CallResult.raised (CallError.requestError "boom") = .ok resp
        ∧ failBoom (2 - 1) = .ok resp)
     ∨ (∃ e, CallResult.raised (CallError.requestError "boom") = .raised e
          ∧ failBoom (2 - 1) = .raised e
          ∧ (retriable e = false ∨ (1 : ℚ) < elapsedAt (expoJitterWait zeroJitter) 2)))
  ∧ (∃ e, failBoom 0 = .raised e ∧ retriable e = true
        ∧ elapsedAt (expoJitterWait zeroJitter) (0 + 1) ≤ 1)
  ∧ (∃ T fuel' n', 5 ≤ n'
        ∧ retryCall T zeroJitter failRefused fuel'
            = some (.raised (.requestError "connection refused"), n')) :=
  retry_until_success_or_time_budget 1 zeroJitter failBoom 3
    (.raised (.requestError "boom")) 2 0 5
    (by norm_num [retryCall, retryLoopAux, expoJitterWait, retriable, failBoom, zeroJitter])
    (by norm_num)

/-- C8: every transport error and every status error arising in the body of
`call_api` is logged at error level and re-raised unchanged — the identical
error value, no wrapping into a client-specific type and no recovery; and
in fact no status error ever arises from the body, because `client.get`
does not raise for 4xx/5xx statuses. -/
theorem errors_logged_and_reraised_unchanged
    (exchange : Request → ExchangeOutcome) (base ep : String) (ps : Option ParamDict) :
    (∀ msg, tryBody exchange (buildRequest base ep ps) = .exnRequest msg →
        call_api exchange base ep ps
          = { result := .raised (.requestError msg)
            , errorLog := ["Request error occurred: " ++ msg] })
  ∧ (∀ code text, tryBody exchange (buildRequest base ep ps) = .exnStatus code text →
        call_api exchange base ep ps
          = { result := .raised (.statusError code text)
            , errorLog := ["HTTP status error occurred: "
                ++ toString code ++ " " ++ text] })
  ∧ (∀ code text, tryBody exchange (buildRequest base ep ps) ≠ .exnStatus code text) := by
  refine ⟨?_, ?_, ?_⟩
  · intro msg hmsg
    unfold call_api
    rw [hmsg]
    rfl
  · intro code text hst
    unfold call_api
    rw [hst]
    rfl
  · intro code text hst
    unfold tryBody at hst
    split at hst
    · simp at hst
    · split at hst
      · simp at hst
      · simp at hst

/-- Witness for C8 at a concrete transport failure. -/
theorem errors_logged_and_reraised_unchanged_witness :
    call_api exchRefused "https://api.example.com" "/" none
      = { result := .raised (.requestError "connection refused")
        , errorLog := ["Request error occurred: connection refused"] } :=
  (errors_logged_and_reraised_unchanged exchRefused "https://api.example.com" "/" none).1
    "connection refused" rfl

/-- C9: on a non-empty parameter dict the filtering step produces exactly
the restriction of the input to its non-None-valued entries: membership is
preserved for every non-None entry (same key, same value), nothing else is
kept, and order and multiplicity are preserved (a sublist). -/
theorem param_filter_is_restriction (ps : ParamDict) (h : ps ≠ [])
    (kv : String × Option String) :
    filtered_api_params (some ps) = some (ps.filter (fun kv => kv.2.isSome))
  ∧ (kv ∈ ps.filter (fun kv => kv.2.isSome) ↔ kv ∈ ps ∧ kv.2.isSome = true)
  ∧ (ps.filter (fun kv => kv.2.isSome)).Sublist ps := by
  have hne : ¬(ps.isEmpty = true) := by simpa using h
  refine ⟨?_, List.mem_filter, List.filter_sublist ps⟩
  rw [filtered_api_params, if_neg hne]

/-- Witness for C9 on a concrete two-entry dict. -/
theorem param_filter_is_restriction_witness :
    filtered_api_params (some [("league_id", none), ("season", some "2024")])
      = some ([("league_id", none), ("season", some "2024")].filter
          (fun kv => kv.2.isSome))
  ∧ (("season", some "2024")
        ∈ [("league_id", (none : Option String)), ("season", some "2024")].filter
            (fun kv => kv.2.isSome)
      ↔ ("season", some "2024")
            ∈ [("league_id", (none : Option String)), ("season", some "2024")]
          ∧ (some "2024").isSome = true)
  ∧ ([("league_id", (none : Option String)), ("season", some "2024")].filter
        (fun kv => kv.2.isSome)).Sublist
      [("league_id", none), ("season", some "2024")] :=
  param_filter_is_restriction [("league_id", none), ("season", some "2024")]
    (by decide) ("season", some "2024")

/-- C10: the retry-wrapped alias `get_url` is bound on the instance exactly
when backoff is enabled; on a no-backoff client accessing it raises
AttributeError rather than falling back to the plain call path. -/
theorem get_url_exists_iff_backoff (cfg : SWCConfig) :
    ((SWCClient.init cfg).get_url).isSome = cfg.swc_backoff
  ∧ (cfg.swc_backoff = false →
      (SWCClient.init cfg).getattr_get_url = .attributeError)
  ∧ (cfg.swc_backoff = true →
      (SWCClient.init cfg).getattr_get_url = .found cfg.swc_backoff_max_time) := by
  refine ⟨?_, ?_, ?_⟩
  · unfold SWCClient.init
    cases hb : cfg.swc_backoff <;> simp [hb]
  · intro hb
    unfold SWCClient.init SWCClient.getattr_get_url
    rw [hb]
    rfl
  · intro hb
    unfold SWCClient.init SWCClient.getattr_get_url
    rw [hb]
    rfl

/-- Witness for C10 on the concrete no-backoff configuration. -/
theorem get_url_exists_iff_backoff_witness :
    (SWCClient.init cfgNoBackoff).getattr_get_url = PyAttr.attributeError :=
  (get_url_exists_iff_backoff cfgNoBackoff).2.1 rfl

end Swcpy
